import Mathlib

/-!
Verification of the deployment script `deployment/7_upgrade_1_6.js`
(argent-contracts upgrade 1.6).

The script is a linear sequence of awaited remote calls (contract
deployments, transactions, multisig executions, uploads) followed by a
version-diff loop.  We embed it shallowly:

* pure data (module descriptors, version manifests) becomes Lean structures;
* the version-diff computation of lines 163-202 becomes pure functions
  (`modulesToRemove0`, `modulesInNewVersion`, `toAddOlder`, `toRemoveOlder`,
  `upgradeLoop`);
* the sequence of awaited external calls becomes an explicit trace of
  `Action`s produced by `deployOutcome`, parameterized by an `Env` record
  holding the external inputs (network name, configured addresses, the
  historical versions returned by `versionUploader.load`, the clock and
  git revision);
* failure of an awaited call is modelled by `runSteps`, which executes the
  action trace step by step under a success oracle and stops at the first
  failing remote step, exactly as an unhandled promise rejection stops the
  `async` function.

Fresh on-chain addresses handed out by `deployer.deploy` are modelled by a
counter: the `MakerRegistry` gets address 0, the four new modules get
addresses 1-4, and upgrader contracts get 5, 6, ... in deployment order.
-/

namespace Argent

/-- A module descriptor `{ name, address }` as used throughout the script
(lines 169-173, 183-185). Addresses are modelled as naturals. -/
structure Module where
  name : String
  address : Nat
deriving DecidableEq, Repr

/-- Modelled from the spec: version strings are compared with the external
`semver` npm package (not part of this repository). A semantic version is
modelled as a `major.minor.patch` triple. -/
structure SemVer where
  major : Nat
  minor : Nat
  patch : Nat
deriving DecidableEq, Repr

/-- Modelled from the spec: `semver.lt` is the strict lexicographic order on
`(major, minor, patch)`. -/
def semverLt (a b : SemVer) : Bool :=
  a.major < b.major ||
    (a.major == b.major &&
      (a.minor < b.minor || (a.minor == b.minor && a.patch < b.patch)))

/-- Modelled from the spec: `semver.inc(v, "patch")` increments the patch
component. -/
def semverIncPatch (v : SemVer) : SemVer :=
  { major := v.major, minor := v.minor, patch := v.patch + 1 }

/-- A historical version manifest as returned by `versionUploader.load`:
version string, creation time, module list and fingerprint. -/
structure VersionManifest where
  version : SemVer
  createdAt : Nat
  modules : List Module
  fingerprint : Nat
deriving DecidableEq, Repr

/-- The `newVersion` object of line 32. It starts as the empty object `{}`
and fields are only assigned in the `idx === 0` branch of the loop
(lines 177-180), so every field is an `Option` defaulting to `none`. -/
structure NewVersion where
  version : Option SemVer := none
  createdAt : Option Nat := none
  modules : Option (List Module) := none
  fingerprint : Option Nat := none
deriving DecidableEq, Repr

/-- Modelled from the spec: `utils.versionFingerprint` lives in
`utils/utilities.js`, which is not part of the sources. The spec requires a
deterministic function of the `(name, address)` pairs of the module set,
order-independent per the chosen convention; we model it as a per-module
hash combined commutatively. -/
def moduleHash (m : Module) : Nat :=
  m.address * 1000003 + (m.name.data.map Char.toNat).sum

/-- Modelled from the spec: the fingerprint of a module set is the
order-independent combination (sum) of the per-module hashes. -/
def versionFingerprint (modules : List Module) : Nat :=
  (modules.map moduleHash).sum

/-- Line 18: `const TARGET_VERSION = "1.6.0"`. -/
def TARGET_VERSION : SemVer := { major := 1, minor := 6, patch := 0 }

/-- Line 19: the four modules re-deployed by this upgrade. -/
def MODULES_TO_ENABLE : List String :=
  ["ApprovedTransfer", "RecoveryManager", "MakerV2Manager", "TransferManager"]

/-- Line 20: the modules disabled by this upgrade. -/
def MODULES_TO_DISABLE : List String := ["UniswapManager"]

/-- Line 22: `const BACKWARD_COMPATIBILITY = 1`. -/
def BACKWARD_COMPATIBILITY : Nat := 1

/-- Line 168: `MODULES_TO_DISABLE.concat(MODULES_TO_ENABLE)`. -/
def moduleNamesToRemove : List String := MODULES_TO_DISABLE ++ MODULES_TO_ENABLE

/-- Line 169: modules of the most recent version whose name appears in the
disable-or-enable list (parameterized by the name list). -/
def modulesToRemove0 (names : List String) (histModules : List Module) : List Module :=
  histModules.filter (fun m => names.contains m.name)

/-- Line 174: modules of the most recent version kept in the new version. -/
def modulesToKeep0 (names : List String) (histModules : List Module) : List Module :=
  histModules.filter (fun m => !names.contains m.name)

/-- Line 175: `toKeep.concat(toAdd)` — the module set of the new version:
kept historical modules followed by the newly deployed modules. -/
def modulesInNewVersion (names : List String) (histModules newMods : List Module) : List Module :=
  modulesToKeep0 names histModules ++ newMods

/-- Line 183: modules of the finalized new version whose address does not
appear among the historical version's module addresses. -/
def toAddOlder (nvModules histModules : List Module) : List Module :=
  nvModules.filter (fun m => !(histModules.map Module.address).contains m.address)

/-- Line 185: modules of the historical version whose address does not
appear among the finalized new version's module addresses. -/
def toRemoveOlder (nvModules histModules : List Module) : List Module :=
  histModules.filter (fun m => !(nvModules.map Module.address).contains m.address)

/-- Lines 177-180: the `newVersion` object finalized in the `idx === 0`
branch, given the clock reading `now` and the newly deployed modules. -/
def finalizedNewVersion (now : Nat) (version : VersionManifest) (newMods : List Module) : NewVersion :=
  let modulesInNew := modulesInNewVersion moduleNamesToRemove version.modules newMods
  { version := some (if semverLt version.version TARGET_VERSION then TARGET_VERSION
                     else semverIncPatch version.version),
    createdAt := some now,
    modules := some modulesInNew,
    fingerprint := some (versionFingerprint modulesInNew) }

/-- Line 188 evaluates the template `${...}_${...}`; the `let fingerprint`
of line 161 starts out undefined. -/
def fpString : Option Nat → String
  | some f => toString f
  | none => "undefined"

/-- The observable external calls issued by the script, in program order.
`deployUpgrader` records `deployer.deploy(Upgrader, {}, registry, toRemove
addresses, toAdd addresses)` of lines 190-196. -/
inductive Action where
  | warn (network : String)
  | setup
  | wrapContract (name : String) (address : Nat)
  | readCall (name : String)
  | deployContract (name : String) (address : Nat) (args : List Nat)
  | sendTransaction (name : String) (args : List Nat)
  | waitTx (label : String)
  | configUpdateModules (addrs : List Nat)
  | configUpdateInfra (addrs : List Nat)
  | configUpdateGitHash (hash : String)
  | configSave
  | abiUploadBatch (uploads : List (String × String))
  | multisigRegisterModule (address : Nat) (name : String)
  | multisigRegisterUpgrader (address : Nat) (name : String)
  | versionLoad (n : Nat)
  | deployUpgrader (address registry : Nat) (toRemove toAdd : List Nat)
  | versionUpload (v : NewVersion)
deriving DecidableEq, Repr

/-- Lines 190-201: per historical version, one upgrader deployment followed
by the two multisig-executed registrations under the composite name. -/
def upgraderBlock (addr registry : Nat) (toRemove toAdd : List Module)
    (upgraderName : String) : List Action :=
  [Action.deployUpgrader addr registry (toRemove.map Module.address) (toAdd.map Module.address),
   Action.multisigRegisterModule addr upgraderName,
   Action.multisigRegisterUpgrader addr upgraderName]

/-- The actions emitted by the loop for the versions at index > 0: each is
diffed (by address) against the finalized new module set `nvModules`, with
the target fingerprint already fixed to `fps`. -/
def olderBlocks (registry : Nat) (nvModules : List Module) (fps : String) :
    Nat → List VersionManifest → List Action
  | _, [] => []
  | ctr, version :: rest =>
      upgraderBlock ctr registry (toRemoveOlder nvModules version.modules)
        (toAddOlder nvModules version.modules)
        (toString version.fingerprint ++ "_" ++ fps) ++
      olderBlocks registry nvModules fps (ctr + 1) rest

/-- Lines 163-202: the historical-version loop. State threaded through the
iterations: the mutable `newVersion` object, the `let fingerprint` variable,
and the fresh-address counter. Returns the final `newVersion`, the final
fingerprint variable, the final counter and the emitted actions. -/
def upgradeLoop (now registry : Nat) (newMods : List Module) :
    List VersionManifest → Nat → NewVersion → Option Nat → Nat →
    NewVersion × Option Nat × Nat × List Action
  | [], _, nv, fp, ctr => (nv, fp, ctr, [])
  | version :: rest, idx, nv, fp, ctr =>
    let step : List Module × List Module × NewVersion × Option Nat :=
      if idx = 0 then
        (newMods, modulesToRemove0 moduleNamesToRemove version.modules,
          finalizedNewVersion now version newMods,
          some (versionFingerprint (modulesInNewVersion moduleNamesToRemove version.modules newMods)))
      else
        let nvModules := nv.modules.getD []
        (toAddOlder nvModules version.modules, toRemoveOlder nvModules version.modules, nv, fp)
    let toAdd := step.1
    let toRemove := step.2.1
    let nv' := step.2.2.1
    let fp' := step.2.2.2
    let upgraderName := toString version.fingerprint ++ "_" ++ fpString fp'
    let tail := upgradeLoop now registry newMods rest (idx + 1) nv' fp' (ctr + 1)
    (tail.1, tail.2.1, tail.2.2.1, upgraderBlock ctr registry toRemove toAdd upgraderName ++ tail.2.2.2)

/-- The external inputs of one run of `deploy(network)`: the network name,
the configured addresses and settings read from `configurator.config`, the
values read from the chain (`vat`, `wethJoin`), the git revision, the clock
and the historical versions returned by `versionUploader.load`. -/
structure Env where
  network : String
  moduleRegistry : Nat
  multiSigWallet : Nat
  tokenPriceProvider : Nat
  makerMigration : Nat
  makerPot : Nat
  makerJug : Nat
  uniswapFactory : Nat
  guardianStorage : Nat
  transferStorage : Nat
  transferManagerPrev : Nat
  recoveryPeriod : Nat
  lockPeriod : Nat
  securityPeriod : Nat
  securityWindow : Nat
  defaultLimit : Nat
  vatAddress : Nat
  wethJoinAddress : Nat
  gitHash : String
  nowSeconds : Nat
  versions : List VersionManifest

/-- Line 25: the allow-list of networks for which no warning is printed. -/
def allowList : List String := ["kovan", "kovan-fork", "staging", "prod"]

/-- Line 115: the networks for which the previously deployed TransferManager
address is passed to the new TransferManager's constructor. -/
def tmPrevNetworks : List String := ["test", "staging", "prod"]

/-- Line 115: the last constructor argument of the TransferManager
deployment — the previous TransferManager on `test`, `staging` and `prod`,
the zero address otherwise. -/
def tmLastArg (env : Env) : Nat :=
  if tmPrevNetworks.contains env.network then env.transferManagerPrev else 0

/-- The allow-listed network whose deployment sequence a non-allow-listed
network reproduces: `staging` for `test` (which shares the TransferManager
constructor argument of line 115), `kovan` for every other network. -/
def replacementNetwork (network : String) : String :=
  if tmPrevNetworks.contains network then "staging" else "kovan"

/-- Lines 72-117: the `newModuleWrappers` list after the four pushes, with
the fresh deployment addresses 1-4 (address 0 is the MakerRegistry). -/
def newModuleWrappers : List Module :=
  [{ name := "ApprovedTransfer", address := 1 },
   { name := "RecoveryManager", address := 2 },
   { name := "MakerV2Manager", address := 3 },
   { name := "TransferManager", address := 4 }]

/-- Lines 38-208 after the network check: the ordered trace of external
calls of one run of `deploy`, together with the final `newVersion` object
passed to `versionUploader.upload` (line 208). -/
def deployBody (env : Env) : List Action × NewVersion :=
  let loopResult := upgradeLoop env.nowSeconds env.moduleRegistry newModuleWrappers
    env.versions 0 {} none 5
  let nv := loopResult.1
  let loopActs := loopResult.2.2.2
  ([Action.setup,
    Action.wrapContract "ModuleRegistry" env.moduleRegistry,
    Action.wrapContract "MultiSigWallet" env.multiSigWallet,
    Action.wrapContract "ScdMcdMigration" env.makerMigration,
    Action.readCall "vat",
    Action.deployContract "MakerRegistry" 0 [env.vatAddress],
    Action.readCall "wethJoin",
    Action.sendTransaction "addCollateral" [env.wethJoinAddress],
    Action.waitTx "addCollateral",
    Action.sendTransaction "changeOwner" [env.multiSigWallet],
    Action.waitTx "changeOwner",
    Action.wrapContract "TokenPriceProvider" env.tokenPriceProvider,
    Action.deployContract "ApprovedTransfer" 1 [env.moduleRegistry, env.guardianStorage],
    Action.deployContract "RecoveryManager" 2
      [env.moduleRegistry, env.guardianStorage, env.recoveryPeriod, env.lockPeriod,
       env.securityPeriod, env.securityWindow],
    Action.deployContract "MakerV2Manager" 3
      [env.moduleRegistry, env.guardianStorage, env.makerMigration, env.makerPot,
       env.makerJug, 0, env.uniswapFactory],
    Action.deployContract "TransferManager" 4
      [env.moduleRegistry, env.transferStorage, env.guardianStorage, env.tokenPriceProvider,
       env.securityPeriod, env.securityWindow, env.defaultLimit, tmLastArg env],
    Action.configUpdateModules [1, 2, 3, 4],
    Action.configUpdateInfra [0],
    Action.configUpdateGitHash env.gitHash,
    Action.configSave,
    Action.abiUploadBatch
      [("ApprovedTransfer", "modules"), ("RecoveryManager", "modules"),
       ("MakerV2Manager", "modules"), ("TransferManager", "modules"),
       ("MakerRegistry", "contracts")]]
   ++ newModuleWrappers.map (fun m => Action.multisigRegisterModule m.address m.name)
   ++ [Action.versionLoad BACKWARD_COMPATIBILITY]
   ++ loopActs
   ++ [Action.versionUpload nv], nv)

/-- `deploy(network)` including the network check of lines 25-29: a console
warning is emitted first when the network is outside the allow-list, then
the body runs unconditionally. -/
def deployOutcome (env : Env) : List Action × NewVersion :=
  let body := deployBody env
  ((if allowList.contains env.network then [] else [Action.warn env.network]) ++ body.1,
   body.2)

/-- Whether an action is an awaited remote call: everything except the
console warning and the synchronous in-memory configuration updates. -/
def Action.isRemote : Action → Bool
  | Action.warn _ => false
  | Action.configUpdateModules _ => false
  | Action.configUpdateInfra _ => false
  | Action.configUpdateGitHash _ => false
  | _ => true

/-- Whether an action is the configuration save of line 136. -/
def isConfigSave : Action → Bool
  | Action.configSave => true
  | _ => false

/-- Whether an action mutates the configuration object (lines 123-135). -/
def isConfigMutation : Action → Bool
  | Action.configUpdateModules _ => true
  | Action.configUpdateInfra _ => true
  | Action.configUpdateGitHash _ => true
  | _ => false

/-- Whether an action is an upgrader-contract deployment (lines 190-196). -/
def isUpgraderDeploy : Action → Bool
  | Action.deployUpgrader _ _ _ _ => true
  | _ => false

/-- Executing the action trace under a success oracle `ok`: the actions run
in order; the first remote action whose oracle entry is `false` rejects, the
error propagates, and nothing after it runs. Local (non-remote) actions
cannot fail. Returns the executed actions and whether the run completed. -/
def runSteps (ok : Nat → Bool) : List Action → Nat → List Action × Bool
  | [], _ => ([], true)
  | s :: rest, i =>
    if Action.isRemote s && !ok i then ([s], false)
    else
      let tail := runSteps ok rest (i + 1)
      (s :: tail.1, tail.2)

/-- A sample run environment used to instantiate the theorems. -/
def sampleEnv : Env :=
  { network := "kovan", moduleRegistry := 10, multiSigWallet := 11, tokenPriceProvider := 12,
    makerMigration := 13, makerPot := 14, makerJug := 15, uniswapFactory := 16,
    guardianStorage := 17, transferStorage := 18, transferManagerPrev := 7,
    recoveryPeriod := 100, lockPeriod := 101, securityPeriod := 102, securityWindow := 103,
    defaultLimit := 99, vatAddress := 20, wethJoinAddress := 21, gitHash := "deadbeef",
    nowSeconds := 1000, versions := [] }

/-- A sample historical manifest with version 1.5.2. -/
def sampleV152 : VersionManifest :=
  { version := { major := 1, minor := 5, patch := 2 }, createdAt := 0,
    modules := [{ name := "UniswapManager", address := 31 },
                { name := "GuardianManager", address := 32 }],
    fingerprint := 777 }

/-- A sample historical manifest with version 1.6.0. -/
def sampleV160 : VersionManifest :=
  { version := { major := 1, minor := 6, patch := 0 }, createdAt := 0,
    modules := [], fingerprint := 800 }

/-- A sample most-recent manifest whose module A at address 5 is kept. -/
def sampleRecent : VersionManifest :=
  { version := { major := 1, minor := 5, patch := 0 }, createdAt := 0,
    modules := [{ name := "A", address := 5 }], fingerprint := 700 }

/-- A sample older manifest holding a module named X at the same address 5. -/
def sampleOlder : VersionManifest :=
  { version := { major := 1, minor := 4, patch := 0 }, createdAt := 0,
    modules := [{ name := "X", address := 5 }], fingerprint := 600 }

/-! ### Helper lemmas -/

/-- Membership in the finalized module set of the index-0 branch. -/
theorem mem_modulesInNewVersion (names : List String) (hist newMods : List Module) (m : Module) :
    m ∈ modulesInNewVersion names hist newMods ↔
      (m ∈ hist ∧ ¬ m.name ∈ names) ∨ m ∈ newMods := by
  simp [modulesInNewVersion, modulesToKeep0, List.mem_filter, List.mem_append, List.elem_iff]

/-- Membership in the index-0 removal set. -/
theorem mem_modulesToRemove0 (names : List String) (hist : List Module) (m : Module) :
    m ∈ modulesToRemove0 names hist ↔ m ∈ hist ∧ m.name ∈ names := by
  simp [modulesToRemove0, List.mem_filter, List.elem_iff]

/-- Membership in the older-version addition set. -/
theorem mem_toAddOlder (nvModules hist : List Module) (m : Module) :
    m ∈ toAddOlder nvModules hist ↔ m ∈ nvModules ∧ ¬ m.address ∈ hist.map Module.address := by
  simp [toAddOlder, List.mem_filter, List.elem_iff]

/-- Membership in the older-version removal set. -/
theorem mem_toRemoveOlder (nvModules hist : List Module) (m : Module) :
    m ∈ toRemoveOlder nvModules hist ↔ m ∈ hist ∧ ¬ m.address ∈ nvModules.map Module.address := by
  simp [toRemoveOlder, List.mem_filter, List.elem_iff]

/-- On a loop index other than 0 the loop never touches the index-0 branch:
state is passed through unchanged and every version is diffed against the
already-fixed new module set. -/
theorem upgradeLoop_pos (now registry : Nat) (newMods : List Module) :
    ∀ (versions : List VersionManifest) (idx : Nat) (nv : NewVersion) (fp : Option Nat) (ctr : Nat),
      idx ≠ 0 →
      upgradeLoop now registry newMods versions idx nv fp ctr =
        (nv, fp, ctr + versions.length,
          olderBlocks registry (nv.modules.getD []) (fpString fp) ctr versions)
  | [], idx, nv, fp, ctr, _ => by simp [upgradeLoop, olderBlocks]
  | version :: rest, idx, nv, fp, ctr, h => by
      have ih := upgradeLoop_pos now registry newMods rest (idx + 1) nv fp (ctr + 1)
        (Nat.succ_ne_zero idx)
      have e : ctr + 1 + rest.length = ctr + (rest.length + 1) := by omega
      simp only [upgradeLoop, if_neg h, ih, olderBlocks, List.length_cons, e]

/-- Unfolding the loop on a non-empty version list: index 0 finalizes the
new manifest and all later versions are diffed against it. -/
theorem upgradeLoop_decomp (now registry : Nat) (newMods : List Module)
    (v : VersionManifest) (rest : List VersionManifest) (ctr : Nat) :
    upgradeLoop now registry newMods (v :: rest) 0 ({} : NewVersion) none ctr =
      (finalizedNewVersion now v newMods,
       some (versionFingerprint (modulesInNewVersion moduleNamesToRemove v.modules newMods)),
       ctr + 1 + rest.length,
       upgraderBlock ctr registry (modulesToRemove0 moduleNamesToRemove v.modules) newMods
         (toString v.fingerprint ++ "_" ++
           toString (versionFingerprint (modulesInNewVersion moduleNamesToRemove v.modules newMods)))
       ++ olderBlocks registry (modulesInNewVersion moduleNamesToRemove v.modules newMods)
            (toString (versionFingerprint (modulesInNewVersion moduleNamesToRemove v.modules newMods)))
            (ctr + 1) rest) := by
  have h := upgradeLoop_pos now registry newMods rest 1 (finalizedNewVersion now v newMods)
    (some (versionFingerprint (modulesInNewVersion moduleNamesToRemove v.modules newMods)))
    (ctr + 1) one_ne_zero
  simp only [finalizedNewVersion, fpString] at h
  simp [upgradeLoop, h, fpString, finalizedNewVersion]

/-- The upgrader blocks contain no configuration actions and exactly one
upgrader deployment per version. -/
theorem upgraderBlock_filters (addr registry : Nat) (toRemove toAdd : List Module) (name : String) :
    (upgraderBlock addr registry toRemove toAdd name).filter isConfigSave = [] ∧
    (upgraderBlock addr registry toRemove toAdd name).filter isConfigMutation = [] ∧
    ((upgraderBlock addr registry toRemove toAdd name).filter isUpgraderDeploy).length = 1 := by
  simp [upgraderBlock, isConfigSave, isConfigMutation, isUpgraderDeploy, List.filter]

/-- The index > 0 blocks contain no configuration actions and exactly one
upgrader deployment per remaining version. -/
theorem olderBlocks_filters (registry : Nat) (nvModules : List Module) (fps : String) :
    ∀ (ctr : Nat) (versions : List VersionManifest),
      (olderBlocks registry nvModules fps ctr versions).filter isConfigSave = [] ∧
      (olderBlocks registry nvModules fps ctr versions).filter isConfigMutation = [] ∧
      ((olderBlocks registry nvModules fps ctr versions).filter isUpgraderDeploy).length =
        versions.length
  | _, [] => by simp [olderBlocks]
  | ctr, v :: rest => by
      have ih := olderBlocks_filters registry nvModules fps (ctr + 1) rest
      have hb := upgraderBlock_filters ctr registry (toRemoveOlder nvModules v.modules)
        (toAddOlder nvModules v.modules) (toString v.fingerprint ++ "_" ++ fps)
      simp only [olderBlocks, List.filter_append, List.length_append, List.length_cons,
        ih.1, ih.2.1, ih.2.2, hb.1, hb.2.1]
      refine ⟨rfl, rfl, ?_⟩
      omega

/-- The loop trace contains no configuration actions and exactly one
upgrader deployment per processed version. -/
theorem upgradeLoopStart_filters (now registry : Nat) (newMods : List Module)
    (versions : List VersionManifest) (ctr : Nat) :
    ((upgradeLoop now registry newMods versions 0 ({} : NewVersion) none ctr).2.2.2).filter
      isConfigSave = [] ∧
    ((upgradeLoop now registry newMods versions 0 ({} : NewVersion) none ctr).2.2.2).filter
      isConfigMutation = [] ∧
    (((upgradeLoop now registry newMods versions 0 ({} : NewVersion) none ctr).2.2.2).filter
      isUpgraderDeploy).length = versions.length := by
  cases versions with
  | nil => simp [upgradeLoop]
  | cons v rest =>
      rw [upgradeLoop_decomp]
      have hb := upgraderBlock_filters ctr registry (modulesToRemove0 moduleNamesToRemove v.modules)
        newMods (toString v.fingerprint ++ "_" ++
          toString (versionFingerprint (modulesInNewVersion moduleNamesToRemove v.modules newMods)))
      have ho := olderBlocks_filters registry (modulesInNewVersion moduleNamesToRemove v.modules newMods)
        (toString (versionFingerprint (modulesInNewVersion moduleNamesToRemove v.modules newMods)))
        (ctr + 1) rest
      simp only [List.filter_append, List.length_append, List.length_cons,
        hb.1, hb.2.1, hb.2.2, ho.1, ho.2.1, ho.2.2, List.append_nil]
      exact ⟨trivial, trivial, by omega⟩

/-! ### Claims -/

/-- C1: for the most recent historical version, the finalized target module
set is the historical set minus every module whose name is in the
disable-list or the enable-list, together with the newly deployed modules;
the loop instantiates this with `MODULES_TO_DISABLE ++ MODULES_TO_ENABLE`
and the four wrappers whose names are exactly `MODULES_TO_ENABLE`; on the
claim's concrete example the target set is `[A@1, C@9, D@8]`. -/
theorem C1_target_module_set (disable enable : List String) (hist newMods : List Module) :
    (∀ m : Module, m ∈ modulesInNewVersion (disable ++ enable) hist newMods ↔
        ((m ∈ hist ∧ ¬ m.name ∈ disable ∧ ¬ m.name ∈ enable) ∨ m ∈ newMods)) ∧
    (∀ (now : Nat) (v : VersionManifest) (mods : List Module),
        (finalizedNewVersion now v mods).modules =
          some (modulesInNewVersion (MODULES_TO_DISABLE ++ MODULES_TO_ENABLE) v.modules mods)) ∧
    newModuleWrappers.map Module.name = MODULES_TO_ENABLE ∧
    modulesInNewVersion (["B"] ++ ["C"])
        [{ name := "A", address := 1 }, { name := "B", address := 2 },
         { name := "C", address := 3 }]
        [{ name := "C", address := 9 }, { name := "D", address := 8 }] =
      [{ name := "A", address := 1 }, { name := "C", address := 9 },
       { name := "D", address := 8 }] := by
  refine ⟨?_, fun _ _ _ => rfl, rfl, by decide⟩
  intro m
  rw [mem_modulesInNewVersion]
  simp [List.mem_append, not_or]

/-- C3: the fingerprint of a manifest is a deterministic, order-independent
function of the (name, address) pairs of its module set: permuting the
module list leaves `versionFingerprint` unchanged. -/
theorem C3_fingerprint_deterministic (l₁ l₂ : List Module) (h : List.Perm l₁ l₂) :
    versionFingerprint l₁ = versionFingerprint l₂ :=
  List.Perm.sum_eq (List.Perm.map moduleHash h)

/-- C3 witness: two concrete orderings of the same module set share a
fingerprint. -/
theorem C3_fingerprint_deterministic_witness :
    versionFingerprint [{ name := "A", address := 1 }, { name := "B", address := 2 }] =
      versionFingerprint [{ name := "B", address := 2 }, { name := "A", address := 1 }] :=
  C3_fingerprint_deterministic _ _
    (List.Perm.swap ({ name := "B", address := 2 } : Module)
      ({ name := "A", address := 1 } : Module) [])

/-- C9: the published manifest's version is `TARGET_VERSION` = 1.6.0 when
the most recent historical version is semantically lower, and the
patch-increment of the historical version otherwise; concretely 1.5.2 maps
to 1.6.0 and 1.6.0 maps to 1.6.1. -/
theorem C9_version_choice (now registry : Nat) (newMods : List Module)
    (v : VersionManifest) (rest : List VersionManifest) (ctr : Nat) :
    TARGET_VERSION = { major := 1, minor := 6, patch := 0 } ∧
    (upgradeLoop now registry newMods (v :: rest) 0 ({} : NewVersion) none ctr).1.version =
      some (if semverLt v.version TARGET_VERSION then TARGET_VERSION
            else semverIncPatch v.version) ∧
    (upgradeLoop 0 0 [] [sampleV152] 0 ({} : NewVersion) none 0).1.version =
      some { major := 1, minor := 6, patch := 0 } ∧
    (upgradeLoop 0 0 [] [sampleV160] 0 ({} : NewVersion) none 0).1.version =
      some { major := 1, minor := 6, patch := 1 } := by
  refine ⟨rfl, ?_, by decide, by decide⟩
  rw [upgradeLoop_decomp]
  rfl



/-- C2 counterexample: the loop diffs older versions by address only
(lines 183-185), so toAdd united with the historical set minus toRemove
need not equal the target as a set of (name, address) pairs. With target
modules containing A@5 (kept from the most recent version) and the older
version containing X@5 at the same address, the pair A@5 is in the target
but in neither toAdd nor the historical remainder. -/
theorem C2_older_diff_counterexample :
    ¬ (∀ m : Module,
        (m ∈ toAddOlder ((finalizedNewVersion 0 sampleRecent newModuleWrappers).modules.getD [])
              sampleOlder.modules ∨
         (m ∈ sampleOlder.modules ∧
          ¬ m ∈ toRemoveOlder
              ((finalizedNewVersion 0 sampleRecent newModuleWrappers).modules.getD [])
              sampleOlder.modules)) ↔
        m ∈ (finalizedNewVersion 0 sampleRecent newModuleWrappers).modules.getD []) := by
  intro hclaim
  have h := (hclaim { name := "A", address := 5 }).mpr (by decide)
  exact absurd h (by decide)

/-- C2 (amended): for older historical versions toAdd and toRemove are
disjoint as (name, address) sets, and — provided any address shared between
the historical set and the target carries the same module name in both —
toAdd united with the historical set minus toRemove equals the target
module set; moreover the loop finalizes the target manifest at index 0 and
computes every later diff against that finalized manifest. -/
theorem C2_older_diff (target hist : List Module) (now registry : Nat) (newMods : List Module)
    (v : VersionManifest) (rest : List VersionManifest) (ctr : Nat)
    (hnames : ∀ m, m ∈ hist → ∀ m', m' ∈ target → m.address = m'.address → m.name = m'.name) :
    (∀ m : Module, ¬(m ∈ toAddOlder target hist ∧ m ∈ toRemoveOlder target hist)) ∧
    (∀ m : Module,
      (m ∈ toAddOlder target hist ∨ (m ∈ hist ∧ ¬ m ∈ toRemoveOlder target hist)) ↔
        m ∈ target) ∧
    (upgradeLoop now registry newMods (v :: rest) 0 ({} : NewVersion) none ctr).1 =
      finalizedNewVersion now v newMods ∧
    (upgradeLoop now registry newMods (v :: rest) 0 ({} : NewVersion) none ctr).2.2.2 =
      upgraderBlock ctr registry (modulesToRemove0 moduleNamesToRemove v.modules) newMods
        (toString v.fingerprint ++ "_" ++
          toString (versionFingerprint (modulesInNewVersion moduleNamesToRemove v.modules newMods)))
      ++ olderBlocks registry ((finalizedNewVersion now v newMods).modules.getD [])
          (toString (versionFingerprint (modulesInNewVersion moduleNamesToRemove v.modules newMods)))
          (ctr + 1) rest := by
  refine ⟨?_, ?_, ?_, ?_⟩
  · rintro m ⟨ha, hr⟩
    rw [mem_toAddOlder] at ha
    rw [mem_toRemoveOlder] at hr
    exact ha.2 (List.mem_map_of_mem Module.address hr.1)
  · intro m
    constructor
    · rintro (ha | ⟨hh, hnr⟩)
      · exact ((mem_toAddOlder target hist m).1 ha).1
      · rw [mem_toRemoveOlder] at hnr
        have haddr : m.address ∈ target.map Module.address := by
          by_contra hcon
          exact hnr ⟨hh, hcon⟩
        obtain ⟨m', hm', hma⟩ := List.mem_map.1 haddr
        have hname : m.name = m'.name := hnames m hh m' hm' hma.symm
        have hmm : m = m' := by
          cases m
          cases m'
          simp only [Module.mk.injEq]
          exact ⟨hname, hma.symm⟩
        rw [hmm]
        exact hm'
    · intro ht
      by_cases hip : m.address ∈ hist.map Module.address
      · right
        obtain ⟨mh, hmh, hma⟩ := List.mem_map.1 hip
        have hname : mh.name = m.name := hnames mh hmh m ht hma
        have hmm : mh = m := by
          cases mh
          cases m
          simp only [Module.mk.injEq]
          exact ⟨hname, hma⟩
        refine ⟨hmm ▸ hmh, ?_⟩
        rw [mem_toRemoveOlder]
        rintro ⟨-, hcon⟩
        exact hcon (List.mem_map_of_mem Module.address ht)
      · left
        rw [mem_toAddOlder]
        exact ⟨ht, hip⟩
  · rw [upgradeLoop_decomp]
  · rw [upgradeLoop_decomp]
    simp [finalizedNewVersion]

/-- C2 witness: the amended theorem applied at a concrete older version
whose addresses are disjoint from the target's. -/
theorem C2_older_diff_witness :
    (upgradeLoop 0 10 newModuleWrappers [sampleRecent] 0 ({} : NewVersion) none 5).1 =
      finalizedNewVersion 0 sampleRecent newModuleWrappers :=
  (C2_older_diff [{ name := "A", address := 5 }] [{ name := "B", address := 6 }]
    0 10 newModuleWrappers sampleRecent [] 5 (by decide)).2.2.1

/-- C6: for each historical version the loop deploys exactly one upgrader,
parameterized by that version's toRemove and toAdd address lists, and
registers it by a multisig registerModule call followed by a multisig
registerUpgrader call under the name sourceFingerprint_targetFingerprint. -/
theorem C6_upgrader_per_version (now registry : Nat) (newMods : List Module)
    (v : VersionManifest) (rest : List VersionManifest) (ctr : Nat) :
    (upgradeLoop now registry newMods (v :: rest) 0 ({} : NewVersion) none ctr).2.2.2 =
      upgraderBlock ctr registry (modulesToRemove0 moduleNamesToRemove v.modules) newMods
        (toString v.fingerprint ++ "_" ++
          toString (versionFingerprint (modulesInNewVersion moduleNamesToRemove v.modules newMods)))
      ++ olderBlocks registry (modulesInNewVersion moduleNamesToRemove v.modules newMods)
          (toString (versionFingerprint (modulesInNewVersion moduleNamesToRemove v.modules newMods)))
          (ctr + 1) rest ∧
    (∀ (addr reg : Nat) (toRemove toAdd : List Module) (upgraderName : String),
      upgraderBlock addr reg toRemove toAdd upgraderName =
        [Action.deployUpgrader addr reg (toRemove.map Module.address) (toAdd.map Module.address),
         Action.multisigRegisterModule addr upgraderName,
         Action.multisigRegisterUpgrader addr upgraderName]) ∧
    ((upgradeLoop now registry newMods (v :: rest) 0 ({} : NewVersion) none ctr).2.2.2.filter
      isUpgraderDeploy).length = (v :: rest).length := by
  refine ⟨?_, fun _ _ _ _ _ => rfl,
    (upgradeLoopStart_filters now registry newMods (v :: rest) ctr).2.2⟩
  rw [upgradeLoop_decomp]


/-- The whole deployment trace contains exactly one upgrader deployment per
loaded historical version: the fixed prefix contains none and the loop
contributes one per version. -/
theorem deployOutcome_upgrader_count (env : Env) :
    ((deployOutcome env).1.filter isUpgraderDeploy).length = env.versions.length := by
  have hl := (upgradeLoopStart_filters env.nowSeconds env.moduleRegistry newModuleWrappers
    env.versions 5).2.2
  have hwarn : ∀ (c : Bool) (n : String),
      (if c = true then ([] : List Action) else [Action.warn n]).filter isUpgraderDeploy = [] := by
    intro c n
    cases c <;> simp [isUpgraderDeploy]
  simp only [deployOutcome, deployBody, List.filter_append, List.length_append, hwarn]
  rw [hl]
  simp [isUpgraderDeploy, newModuleWrappers]

/-- C8: BACKWARD_COMPATIBILITY is 1, so when the version loader honours its
window (returns at most that many manifests) the run deploys at most one
upgrader — one per loaded version — and the index > 0 branch of the loop is
never reached (there is no second version to process). -/
theorem C8_backward_window (env : Env) (h : env.versions.length ≤ BACKWARD_COMPATIBILITY) :
    BACKWARD_COMPATIBILITY = 1 ∧
    ((deployOutcome env).1.filter isUpgraderDeploy).length = env.versions.length ∧
    ((deployOutcome env).1.filter isUpgraderDeploy).length ≤ 1 ∧
    (∀ v rest, env.versions = v :: rest → rest = []) := by
  have hc := deployOutcome_upgrader_count env
  refine ⟨rfl, hc, ?_, ?_⟩
  · rw [hc]
    exact h
  · intro v rest hvr
    have h2 : (v :: rest).length ≤ 1 := by
      rw [← hvr]
      exact h
    have h3 : rest.length + 1 ≤ 1 := by simpa using h2
    exact List.eq_nil_of_length_eq_zero (by omega)

/-- C8 witness: with a single loaded historical version exactly one upgrader
is deployed. -/
theorem C8_backward_window_witness :
    ((deployOutcome { sampleEnv with versions := [sampleV152] }).1.filter
      isUpgraderDeploy).length = 1 :=
  (C8_backward_window { sampleEnv with versions := [sampleV152] } (by decide)).2.1

/-- C10: with no historical versions the loop never runs, no upgrader is
deployed, and the upload at line 208 still happens, receiving the untouched
empty object: a manifest whose version, createdAt, modules and fingerprint
fields are all absent. -/
theorem C10_empty_versions (env : Env) (h : env.versions = []) :
    (deployOutcome env).1.filter isUpgraderDeploy = [] ∧
    (deployOutcome env).2 = ({} : NewVersion) ∧
    (∃ pre, (deployOutcome env).1 = pre ++ [Action.versionUpload ({} : NewVersion)]) ∧
    ({} : NewVersion).version = none ∧ ({} : NewVersion).createdAt = none ∧
    ({} : NewVersion).modules = none ∧ ({} : NewVersion).fingerprint = none := by
  refine ⟨?_, ?_, ?_, rfl, rfl, rfl, rfl⟩
  · have hc := deployOutcome_upgrader_count env
    rw [h] at hc
    exact List.eq_nil_of_length_eq_zero hc
  · simp [deployOutcome, deployBody, h, upgradeLoop]
  · refine ⟨(if allowList.contains env.network then [] else [Action.warn env.network]) ++
      ([Action.setup,
        Action.wrapContract "ModuleRegistry" env.moduleRegistry,
        Action.wrapContract "MultiSigWallet" env.multiSigWallet,
        Action.wrapContract "ScdMcdMigration" env.makerMigration,
        Action.readCall "vat",
        Action.deployContract "MakerRegistry" 0 [env.vatAddress],
        Action.readCall "wethJoin",
        Action.sendTransaction "addCollateral" [env.wethJoinAddress],
        Action.waitTx "addCollateral",
        Action.sendTransaction "changeOwner" [env.multiSigWallet],
        Action.waitTx "changeOwner",
        Action.wrapContract "TokenPriceProvider" env.tokenPriceProvider,
        Action.deployContract "ApprovedTransfer" 1 [env.moduleRegistry, env.guardianStorage],
        Action.deployContract "RecoveryManager" 2
          [env.moduleRegistry, env.guardianStorage, env.recoveryPeriod, env.lockPeriod,
           env.securityPeriod, env.securityWindow],
        Action.deployContract "MakerV2Manager" 3
          [env.moduleRegistry, env.guardianStorage, env.makerMigration, env.makerPot,
           env.makerJug, 0, env.uniswapFactory],
        Action.deployContract "TransferManager" 4
          [env.moduleRegistry, env.transferStorage, env.guardianStorage, env.tokenPriceProvider,
           env.securityPeriod, env.securityWindow, env.defaultLimit, tmLastArg env],
        Action.configUpdateModules [1, 2, 3, 4],
        Action.configUpdateInfra [0],
        Action.configUpdateGitHash env.gitHash,
        Action.configSave,
        Action.abiUploadBatch
          [("ApprovedTransfer", "modules"), ("RecoveryManager", "modules"),
           ("MakerV2Manager", "modules"), ("TransferManager", "modules"),
           ("MakerRegistry", "contracts")]]
       ++ newModuleWrappers.map (fun m => Action.multisigRegisterModule m.address m.name)
       ++ [Action.versionLoad BACKWARD_COMPATIBILITY]), ?_⟩
    simp [deployOutcome, deployBody, h, upgradeLoop, newModuleWrappers]

/-- C10 witness: the sample environment loads no versions and uploads the
empty manifest. -/
theorem C10_empty_versions_witness : (deployOutcome sampleEnv).2 = ({} : NewVersion) :=
  (C10_empty_versions sampleEnv rfl).2.1

/-- Running a step list under a success oracle with a first failure at
position k executes exactly the first k + 1 steps and reports the error. -/
theorem runSteps_failure_stops (ok : Nat → Bool) :
    ∀ (l : List Action) (i0 k : Nat), k < l.length →
      Action.isRemote (l.getD k Action.setup) = true →
      (∀ j, j < k → ok (i0 + j) = true) → ok (i0 + k) = false →
      runSteps ok l i0 = (l.take (k + 1), false)
  | [], _, k, hk, _, _, _ => absurd hk (by simp)
  | s :: rest, i0, k, hk, hr, hok, hf => by
      cases k with
      | zero =>
          have hs : Action.isRemote s = true := by simpa using hr
          have h0 : ok i0 = false := by simpa using hf
          simp [runSteps, hs, h0]
      | succ k =>
          have h0 : ok i0 = true := by simpa using hok 0 (Nat.succ_pos k)
          have ih := runSteps_failure_stops ok rest (i0 + 1) k (by simpa using hk)
            (by simpa using hr)
            (fun j hj => by
              have e : i0 + 1 + j = i0 + (j + 1) := by omega
              rw [e]
              exact hok (j + 1) (by omega))
            (by
              have e : i0 + 1 + k = i0 + (k + 1) := by omega
              rw [e]
              exact hf)
          simp [runSteps, h0, ih]

/-- C4: if the awaited remote call at position k of the deployment sequence
fails (all earlier remote calls having succeeded), the error propagates out
of deploy at once: the executed actions are exactly the first k + 1 steps of
the sequence — nothing later runs and no compensating action is taken — and
the run ends in the error state. -/
theorem C4_failure_propagates (env : Env) (ok : Nat → Bool) (k : Nat)
    (hk : k < (deployOutcome env).1.length)
    (hr : Action.isRemote ((deployOutcome env).1.getD k Action.setup) = true)
    (hok : ∀ j, j < k → ok j = true) (hf : ok k = false) :
    runSteps ok (deployOutcome env).1 0 = ((deployOutcome env).1.take (k + 1), false) :=
  runSteps_failure_stops ok (deployOutcome env).1 0 k hk hr
    (fun j hj => by simpa using hok j hj) (by simpa using hf)

/-- C4 witness: failing the very first awaited call (the deploy-manager
setup) executes only that step. -/
theorem C4_failure_propagates_witness :
    runSteps (fun _ => false) (deployOutcome sampleEnv).1 0 =
      ((deployOutcome sampleEnv).1.take 1, false) :=
  C4_failure_propagates sampleEnv (fun _ => false) 0 (by decide) (by decide)
    (fun j hj => absurd hj (Nat.not_lt_zero j)) rfl


/-- C5 counterexample: the deployment sequence is not independent of the
network. Both test and ropsten lie outside the warning allow-list, yet their
traces differ: line 115 passes the previous TransferManager address on test
and the zero address on ropsten. -/
theorem C5_network_check_counterexample :
    allowList.contains "test" = false ∧ allowList.contains "ropsten" = false ∧
    (deployOutcome { sampleEnv with network := "test" }).1 ≠
      (deployOutcome { sampleEnv with network := "ropsten" }).1 := by
  refine ⟨rfl, rfl, ?_⟩
  intro h
  have h16 := congrArg (fun l => l.getD 16 Action.setup) h
  exact absurd h16 (by decide)

/-- C5 (amended): on a network outside the allow-list, deploy emits the
console warning and then proceeds without aborting, executing the same
deployment sequence as an allow-listed network — staging when the network is
in the TransferManager list of line 115 (that is, test), kovan otherwise. -/
theorem C5_warn_and_proceed (env : Env) (h : allowList.contains env.network = false) :
    allowList.contains (replacementNetwork env.network) = true ∧
    (deployOutcome env).1 =
      Action.warn env.network ::
        (deployOutcome { env with network := replacementNetwork env.network }).1 := by
  have hnot : ¬ env.network ∈ allowList := by simpa using h
  have htm : tmLastArg { env with network := replacementNetwork env.network } = tmLastArg env := by
    by_cases hc : env.network ∈ tmPrevNetworks
    · simp [tmLastArg, replacementNetwork, hc,
        (by decide : ("staging" : String) ∈ tmPrevNetworks)]
    · simp [tmLastArg, replacementNetwork, hc,
        (by decide : ¬ ("kovan" : String) ∈ tmPrevNetworks)]
  have hrepmem : replacementNetwork env.network ∈ allowList := by
    by_cases hc : env.network ∈ tmPrevNetworks
    · simp [replacementNetwork, hc, (by decide : ("staging" : String) ∈ allowList)]
    · simp [replacementNetwork, hc, (by decide : ("kovan" : String) ∈ allowList)]
  refine ⟨by simpa using hrepmem, ?_⟩
  simp [deployOutcome, deployBody, hnot, hrepmem, htm]

/-- C5 witness: the amended theorem at the concrete network ropsten. -/
theorem C5_warn_and_proceed_witness :
    allowList.contains (replacementNetwork "ropsten") = true ∧
    (deployOutcome { sampleEnv with network := "ropsten" }).1 =
      Action.warn "ropsten" ::
        (deployOutcome { sampleEnv with network := replacementNetwork "ropsten" }).1 :=
  C5_warn_and_proceed { sampleEnv with network := "ropsten" } (by decide)

/-- C7: the configuration object is mutated (module addresses,
infrastructure addresses, git revision stamp) and then saved exactly once:
the trace splits around the single configSave, all three mutations precede
it, and nothing after it mutates or saves the configuration. -/
theorem C7_config_saved_after_mutations (env : Env) :
    ∃ pre post,
      (deployOutcome env).1 = pre ++ Action.configSave :: post ∧
      pre.filter isConfigSave = [] ∧
      post.filter isConfigSave = [] ∧
      post.filter isConfigMutation = [] ∧
      Action.configUpdateModules [1, 2, 3, 4] ∈ pre ∧
      Action.configUpdateInfra [0] ∈ pre ∧
      Action.configUpdateGitHash env.gitHash ∈ pre := by
  have hloop := upgradeLoopStart_filters env.nowSeconds env.moduleRegistry newModuleWrappers
    env.versions 5
  refine ⟨(if allowList.contains env.network then [] else [Action.warn env.network]) ++
      [Action.setup,
       Action.wrapContract "ModuleRegistry" env.moduleRegistry,
       Action.wrapContract "MultiSigWallet" env.multiSigWallet,
       Action.wrapContract "ScdMcdMigration" env.makerMigration,
       Action.readCall "vat",
       Action.deployContract "MakerRegistry" 0 [env.vatAddress],
       Action.readCall "wethJoin",
       Action.sendTransaction "addCollateral" [env.wethJoinAddress],
       Action.waitTx "addCollateral",
       Action.sendTransaction "changeOwner" [env.multiSigWallet],
       Action.waitTx "changeOwner",
       Action.wrapContract "TokenPriceProvider" env.tokenPriceProvider,
       Action.deployContract "ApprovedTransfer" 1 [env.moduleRegistry, env.guardianStorage],
       Action.deployContract "RecoveryManager" 2
         [env.moduleRegistry, env.guardianStorage, env.recoveryPeriod, env.lockPeriod,
          env.securityPeriod, env.securityWindow],
       Action.deployContract "MakerV2Manager" 3
         [env.moduleRegistry, env.guardianStorage, env.makerMigration, env.makerPot,
          env.makerJug, 0, env.uniswapFactory],
       Action.deployContract "TransferManager" 4
         [env.moduleRegistry, env.transferStorage, env.guardianStorage, env.tokenPriceProvider,
          env.securityPeriod, env.securityWindow, env.defaultLimit, tmLastArg env],
       Action.configUpdateModules [1, 2, 3, 4],
       Action.configUpdateInfra [0],
       Action.configUpdateGitHash env.gitHash],
    [Action.abiUploadBatch
       [("ApprovedTransfer", "modules"), ("RecoveryManager", "modules"),
        ("MakerV2Manager", "modules"), ("TransferManager", "modules"),
        ("MakerRegistry", "contracts")]]
     ++ newModuleWrappers.map (fun m => Action.multisigRegisterModule m.address m.name)
     ++ [Action.versionLoad BACKWARD_COMPATIBILITY]
     ++ (upgradeLoop env.nowSeconds env.moduleRegistry newModuleWrappers
          env.versions 0 ({} : NewVersion) none 5).2.2.2
     ++ [Action.versionUpload
          (upgradeLoop env.nowSeconds env.moduleRegistry newModuleWrappers
            env.versions 0 ({} : NewVersion) none 5).1],
    ?_, ?_, ?_, ?_, ?_, ?_, ?_⟩
  · simp [deployOutcome, deployBody]
  · by_cases hw : allowList.contains env.network <;>
      simp [hw, List.filter_append, isConfigSave]
  · simp only [List.filter_append, hloop.1]
    simp [isConfigSave, newModuleWrappers]
  · simp only [List.filter_append, hloop.2.1]
    simp [isConfigMutation, newModuleWrappers]
  · simp
  · simp
  · simp

end Argent
